import Mathlib

/-!
Shallow embedding of the fullscrn facade (src: the immediately-invoked
factory producing the Fullscrn object) and proofs about its behaviour.

The source is a small cross-browser wrapper over the DOM Fullscreen API:
it probes a fixed two-row capability table against the host document,
exposes derived accessors (element, isFullscreen, isEnabled), and bridges
the event-driven completion of request / exit into a Promise.

Modelling conventions:
- JavaScript values are the inductive JSVal, with JS truthiness.
- The host document is a Doc: an association list of dynamic-keyed
  properties plus documentElement; absent properties read as undefined.
- DOM listener registration is an explicit list of (event name, callback
  identity) pairs; addEventListener deduplicates, removeEventListener of
  an unregistered listener is a no-op.
- A Promise is its settlement state (PState); resolve and reject settle
  only a pending promise (first settle wins), and an uncaught synchronous
  throw inside a Promise executor rejects the (still pending) promise.
- The host-provided operations requestFullscreen / exitFullscreen are
  given by behaviours (ROp): throw synchronously, return a non-Promise
  value, or return a trackable Promise. The asynchronous aftermath of a
  call is a list of AEvent processed by a step function.
-/

namespace Fullscrn

/-- JavaScript runtime values, as far as the facade can observe them. -/
inductive JSVal where
  | undefined
  | null
  | bool (b : Bool)
  | num (n : Int)
  | str (s : String)
  | elem (id : Nat)
  | fn (id : Nat)
deriving DecidableEq, Repr

/-- JS truthiness, i.e. Boolean(v). -/
def JSVal.truthy : JSVal → Bool
  | .undefined => false
  | .null => false
  | .bool b => b
  | .num n => n != 0
  | .str s => s != ""
  | .elem _ => true
  | .fn _ => true

/-- The host document-like object: its dynamic-keyed properties and its
root element (document.documentElement). -/
structure Doc where
  props : List (String × JSVal)
  documentElement : JSVal
deriving DecidableEq, Repr

/-- JS property access d[k]: the stored value, or undefined when absent. -/
def Doc.get (d : Doc) (k : String) : JSVal :=
  (d.props.lookup k).getD .undefined

/-- First row of the capability table fn: the standard names. -/
def stdVariant : List String :=
  ["requestFullscreen", "exitFullscreen", "fullscreenElement",
   "fullscreenEnabled", "fullscreenchange", "fullscreenerror"]

/-- Second row of the capability table fn: the WebKit names. -/
def webkitVariant : List String :=
  ["webkitRequestFullscreen", "webkitExitFullscreen", "webkitFullscreenElement",
   "webkitFullscreenEnabled", "webkitfullscreenchange", "webkitfullscreenerror"]

/-- The capability table, in the source's priority order. -/
def variants : List (List String) := [stdVariant, webkitVariant]

/-- JS array read v[i] on a row of the table (all rows have 6 entries;
out of range would be undefined, rendered here as the empty string). -/
def nth (v : List String) (i : Nat) : String := (v[i]?).getD ""

/-- The selector: [std, webkit].find(v => document[v[1]]) — the first
variant whose exit-operation property is truthy on the host. -/
def selectFn (d : Doc) : Option (List String) :=
  variants.find? (fun v => (d.get (nth v 1)).truthy)

/-- Accessor element: null in unsupported mode, otherwise the raw value of
document[fn[2]]. -/
def element (d : Doc) : JSVal :=
  match selectFn d with
  | none => .null
  | some f => d.get (nth f 2)

/-- Accessor isFullscreen: false in unsupported mode, otherwise
Boolean(document[fn[2]]). -/
def isFullscreen (d : Doc) : Bool :=
  match selectFn d with
  | none => false
  | some f => (d.get (nth f 2)).truthy

/-- Accessor isEnabled: false in unsupported mode, otherwise
Boolean(document[fn[3]]). -/
def isEnabled (d : Doc) : Bool :=
  match selectFn d with
  | none => false
  | some f => (d.get (nth f 3)).truthy

/-- Identity of a callback registered on the document: either a caller's
callback (user k) or the internal one-shot closure created by the n-th
request / exit call (onFullScreenEntered / onFullScreenExit). -/
inductive CbId where
  | user (k : Nat)
  | oneShot (n : Nat)
deriving DecidableEq, Repr

/-- The document's listener list: (event name, callback) pairs, in
registration order.  The source always passes capture = false, so the
capture flag is omitted. -/
abbrev Listeners := List (String × CbId)

/-- The internal event kinds of the facade ('change' | 'error'). -/
inductive EvKind where
  | change
  | error
deriving DecidableEq, Repr

/-- eventNames lookup: change ↦ fn[4], error ↦ fn[5]. -/
def eventName (f : List String) : EvKind → String
  | .change => nth f 4
  | .error => nth f 5

/-- document.addEventListener(name, cb, false): appending is skipped when
an identical (name, callback) pair is already registered. -/
def addListener (ls : Listeners) (name : String) (cb : CbId) : Listeners :=
  if (name, cb) ∈ ls then ls else ls ++ [(name, cb)]

/-- document.removeEventListener(name, cb, false): removes the matching
registration; removing an unregistered listener changes nothing. -/
def removeListener (ls : Listeners) (name : String) (cb : CbId) : Listeners :=
  ls.filter (fun p => p != (name, cb))

/-- The private helper off(event, callback): looks up the concrete event
name and, when it is truthy (a nonempty string), removes the listener. -/
def off (f : List String) (ls : Listeners) (ev : EvKind) (cb : CbId) : Listeners :=
  if eventName f ev = "" then ls
  else removeListener ls (eventName f ev) cb

/-- Settlement state of a Promise. -/
inductive PState where
  | pending
  | fulfilled
  | rejected (e : JSVal)
deriving DecidableEq, Repr

/-- resolve(): settles the promise only if it is still pending. -/
def resolveP : PState → PState
  | .pending => .fulfilled
  | s => s

/-- reject(e): settles the promise only if it is still pending. -/
def rejectP (e : JSVal) : PState → PState
  | .pending => .rejected e
  | s => s

/-- Behaviour of invoking a host-provided operation: it may throw
synchronously, return a non-Promise value (no tracking: the source's
instanceof Promise test fails), or return a trackable Promise. -/
inductive ROp where
  | throws (e : JSVal)
  | ret (v : JSVal)
  | retPromise
deriving DecidableEq, Repr

/-- A host environment: the document plus the semantics of invoking
element[fn[0]](options) (per target element and options value) and of
invoking document[fn[1]](). -/
structure Host where
  doc : Doc
  reqBehavior : JSVal → JSVal → ROp
  exitBehavior : ROp

/-- Observable outcome of the synchronous phase of a facade call: the
returned promise's state so far, the listener list afterwards, the trace
of requestFullscreen invocations (target element, options), whether the
exit operation was invoked, and whether an awaitable is being tracked
(then / catch chained onto the operation's returned Promise). -/
structure CallResult where
  pstate : PState
  listeners : Listeners
  reqInvoked : List (JSVal × JSVal)
  exitInvoked : Bool
  tracked : Bool
deriving DecidableEq, Repr

/-- Synchronous phase of request(element, options) in supported mode, as
the source's Promise executor runs it: register the one-shot change
listener via onchange, default a falsy element to documentElement
(element ||= document.documentElement), invoke element[fn[0]](options),
and chain then / catch when the return value is a Promise.  An uncaught
synchronous throw from the invocation rejects the still-pending promise
(Promise executor semantics). -/
def requestSync (h : Host) (f : List String) (n : Nat) (ls : Listeners)
    (el opts : JSVal) : CallResult :=
  let ls1 := addListener ls (eventName f .change) (.oneShot n)
  let target := if el.truthy then el else h.doc.documentElement
  match h.reqBehavior target opts with
  | .throws e => ⟨rejectP e .pending, ls1, [(target, opts)], false, false⟩
  | .ret _ => ⟨.pending, ls1, [(target, opts)], false, false⟩
  | .retPromise => ⟨.pending, ls1, [(target, opts)], false, true⟩

/-- Synchronous phase of exit() in supported mode: if not currently
fullscreen (Boolean(document[fn[2]]) is false), resolve immediately and
return; otherwise register the one-shot change listener, invoke
document[fn[1]](), and chain then / catch when the return value is a
Promise. -/
def exitSync (h : Host) (f : List String) (n : Nat) (ls : Listeners) : CallResult :=
  if (h.doc.get (nth f 2)).truthy = false then
    ⟨resolveP .pending, ls, [], false, false⟩
  else
    let ls1 := addListener ls (eventName f .change) (.oneShot n)
    match h.exitBehavior with
    | .throws e => ⟨rejectP e .pending, ls1, [], true, false⟩
    | .ret _ => ⟨.pending, ls1, [], true, false⟩
    | .retPromise => ⟨.pending, ls1, [], true, true⟩

/-- toggle(element, options) in supported mode:
_fullscrn.isFullscreen ? exit() : request(element, options). -/
def toggleSync (h : Host) (f : List String) (n : Nat) (ls : Listeners)
    (el opts : JSVal) : CallResult :=
  if (h.doc.get (nth f 2)).truthy then exitSync h f n ls
  else requestSync h f n ls el opts

/-- The unsupported-mode methods _noopP: an already-resolved promise, no
listener change, no host invocation. -/
def noopCall (ls : Listeners) : CallResult := ⟨.fulfilled, ls, [], false, false⟩

/-- The facade's request: noop in unsupported mode, requestSync under the
selected variant otherwise. -/
def request (h : Host) (n : Nat) (ls : Listeners) (el opts : JSVal) : CallResult :=
  match selectFn h.doc with
  | none => noopCall ls
  | some f => requestSync h f n ls el opts

/-- The facade's exit: noop in unsupported mode, exitSync otherwise. -/
def exit (h : Host) (n : Nat) (ls : Listeners) : CallResult :=
  match selectFn h.doc with
  | none => noopCall ls
  | some f => exitSync h f n ls

/-- The facade's toggle: noop in unsupported mode, toggleSync otherwise. -/
def toggle (h : Host) (n : Nat) (ls : Listeners) (el opts : JSVal) : CallResult :=
  match selectFn h.doc with
  | none => noopCall ls
  | some f => toggleSync h f n ls el opts

/-- onchange(cb), effect on the listener list: unsupported mode registers
nothing (_noopZ); supported mode is addEventListener on eventNames.change. -/
def onchange (d : Doc) (ls : Listeners) (cb : CbId) : Listeners :=
  match selectFn d with
  | none => ls
  | some f => addListener ls (eventName f .change) cb

/-- The unsubscribe closure returned by onchange(cb): unsupported mode does
nothing (_noopV); supported mode is off('change', cb). -/
def onchangeOff (d : Doc) (ls : Listeners) (cb : CbId) : Listeners :=
  match selectFn d with
  | none => ls
  | some f => off f ls .change cb

/-- onerror(cb), effect on the listener list. -/
def onerror (d : Doc) (ls : Listeners) (cb : CbId) : Listeners :=
  match selectFn d with
  | none => ls
  | some f => addListener ls (eventName f .error) cb

/-- The unsubscribe closure returned by onerror(cb). -/
def onerrorOff (d : Doc) (ls : Listeners) (cb : CbId) : Listeners :=
  match selectFn d with
  | none => ls
  | some f => off f ls .error cb

/-- Runtime state while the promise of the n-th request / exit call is in
flight: its settlement state, the document's listeners, and the user
callbacks invoked so far (in invocation order). -/
structure RState where
  pstate : PState
  listeners : Listeners
  invokedUser : List Nat
deriving DecidableEq, Repr

/-- The body of the one-shot closure (onFullScreenEntered /
onFullScreenExit): _off('change', itself) then resolve(). -/
def runOneShot (f : List String) (n : Nat) (s : RState) : RState :=
  ⟨resolveP s.pstate, off f s.listeners .change (.oneShot n), s.invokedUser⟩

/-- Invoke one dispatched callback, provided it is still registered for
this event name (a listener removed mid-dispatch is not called).  The
call's own one-shot runs its body; a user callback is recorded; a one-shot
of some other call does not touch this call's promise. -/
def fireCb (f : List String) (n : Nat) (name : String) (s : RState) (cb : CbId) : RState :=
  if (name, cb) ∈ s.listeners then
    match cb with
    | .oneShot m => if m = n then runOneShot f n s else s
    | .user k => ⟨s.pstate, s.listeners, s.invokedUser ++ [k]⟩
  else s

/-- The host dispatches the event called name: the listeners registered
for it at dispatch time are invoked in registration order. -/
def dispatchEvent (f : List String) (n : Nat) (s : RState) (name : String) : RState :=
  (s.listeners.filter (fun p => p.1 == name)).foldl
    (fun st p => fireCb f n name st p.2) s

/-- Asynchronous events after the synchronous phase of a call: the host
fires the change or error event, or the tracked awaitable returned by the
underlying operation settles. -/
inductive AEvent where
  | changeEv
  | errorEv
  | pFulfill
  | pReject (e : JSVal)
deriving DecidableEq, Repr

/-- One asynchronous step.  A change / error event is dispatched to the
registered listeners.  When an awaitable is tracked, its fulfillment runs
the one-shot (promise.then(onFullScreenEntered)) and its rejection calls
reject (.catch(reject)); with no tracked awaitable these do not occur. -/
def stepEvent (f : List String) (n : Nat) (tracked : Bool) (s : RState) :
    AEvent → RState
  | .changeEv => dispatchEvent f n s (eventName f .change)
  | .errorEv => dispatchEvent f n s (eventName f .error)
  | .pFulfill => if tracked then runOneShot f n s else s
  | .pReject e => if tracked then ⟨rejectP e s.pstate, s.listeners, s.invokedUser⟩ else s

/-- Process a list of asynchronous events in order. -/
def runEvents (f : List String) (n : Nat) (tracked : Bool) (s : RState)
    (evs : List AEvent) : RState :=
  evs.foldl (stepEvent f n tracked) s

/-- A request call followed by a schedule of asynchronous events. -/
def requestRun (h : Host) (f : List String) (n : Nat) (ls : Listeners)
    (el opts : JSVal) (evs : List AEvent) : RState :=
  let c := requestSync h f n ls el opts
  runEvents f n c.tracked ⟨c.pstate, c.listeners, []⟩ evs

/-! Example hosts used to instantiate the theorems. -/

/-- A supported host (standard variant), currently not fullscreen. -/
def exDocStd : Doc := ⟨[("exitFullscreen", .fn 1)], .elem 0⟩

/-- exDocStd with a request operation returning a trackable Promise. -/
def exHostP : Host := ⟨exDocStd, fun _ _ => .retPromise, .ret .undefined⟩

/-- exDocStd with a request operation that throws synchronously. -/
def exHostThrow : Host := ⟨exDocStd, fun _ _ => .throws (.str "err"), .ret .undefined⟩

/-- A supported host currently in fullscreen (element 5). -/
def exDocFs : Doc := ⟨[("exitFullscreen", .fn 1), ("fullscreenElement", .elem 5)], .elem 0⟩

/-- exDocFs as a host. -/
def exHostFs : Host := ⟨exDocFs, fun _ _ => .retPromise, .retPromise⟩

/-- A host exposing no fullscreen capability at all. -/
def exHostNone : Host := ⟨⟨[], .elem 0⟩, fun _ _ => .ret .undefined, .ret .undefined⟩

/-- A host exposing both the standard and the WebKit exit operations. -/
def exDocBoth : Doc :=
  ⟨[("exitFullscreen", .fn 1), ("webkitExitFullscreen", .fn 2)], .elem 0⟩

/-! Shared helper lemmas. -/

/-- A selected variant is one of the two rows of the capability table. -/
lemma selectFn_mem {d : Doc} {f : List String} (h : selectFn d = some f) :
    f = stdVariant ∨ f = webkitVariant := by
  have hm := List.mem_of_find?_eq_some h
  simpa [variants] using hm

/-- Both rows carry a nonempty change-event name. -/
lemma eventName_change_ne {d : Doc} {f : List String} (h : selectFn d = some f) :
    eventName f .change ≠ "" := by
  rcases selectFn_mem h with rfl | rfl <;> decide

/-! Claim theorems. -/

/-- Claim C8: for every host object exposing both the standard
exitFullscreen and the WebKit-prefixed webkitExitFullscreen operations,
the selector picks the standard variant: it probes the rows in priority
order, standard first. -/
theorem C8_variant_priority (d : Doc)
    (hstd : (d.get "exitFullscreen").truthy = true)
    (hwk : (d.get "webkitExitFullscreen").truthy = true) :
    selectFn d = some stdVariant := by
  have h1 : ((d.get (nth stdVariant 1)).truthy) = true := by
    have : nth stdVariant 1 = "exitFullscreen" := by decide
    rw [this]; exact hstd
  unfold selectFn variants
  exact List.find?_cons_of_pos _ h1

/-- Witness for C8 at a host exposing both exit operations. -/
theorem C8_variant_priority_witness :
    (exDocBoth.get "exitFullscreen").truthy = true ∧
    (exDocBoth.get "webkitExitFullscreen").truthy = true ∧
    selectFn exDocBoth = some stdVariant :=
  ⟨by decide, by decide,
    C8_variant_priority exDocBoth (by decide) (by decide)⟩

/-- Claim C9 counterexample: a supported host (standard exit operation
present) on which the fullscreenElement property is absent.  The element
accessor returns undefined — the raw result of the property read — and
not null as the claim states. -/
theorem C9_counterexample :
    selectFn exDocStd = some stdVariant ∧
    exDocStd.props.lookup "fullscreenElement" = none ∧
    element exDocStd = .undefined ∧ JSVal.undefined ≠ JSVal.null := by
  decide

/-- Claim C9 (amended): for every supported host, the element accessor
returns the raw value of the host's elementProp: the stored value when the
property is present, and undefined (not null) when it is absent. -/
theorem C9_element_raw (d : Doc) (f : List String) (v : JSVal)
    (hsel : selectFn d = some f) :
    (d.props.lookup (nth f 2) = some v → element d = v) ∧
    (d.props.lookup (nth f 2) = none → element d = .undefined) := by
  unfold element
  rw [hsel]
  constructor <;> intro hl <;> simp [Doc.get, hl]

/-- Witness for the amended C9 at a concrete supported host. -/
theorem C9_element_raw_witness :
    selectFn exDocStd = some stdVariant ∧
    ((exDocStd.props.lookup (nth stdVariant 2) = some (.elem 7) →
        element exDocStd = .elem 7) ∧
     (exDocStd.props.lookup (nth stdVariant 2) = none →
        element exDocStd = .undefined)) :=
  ⟨by decide, C9_element_raw exDocStd stdVariant (.elem 7) (by decide)⟩

/-- Claim C3: on a host exposing neither exit operation the facade is
inert: isEnabled, isFullscreen are false, element is null; request, exit
and toggle return an already-resolved promise with no listener change and
no host invocation; onchange and onerror register nothing and their
unsubscribe closures change nothing. -/
theorem C3_graceful_degradation (h : Host) (n : Nat) (ls : Listeners)
    (cb : CbId) (el opts : JSVal)
    (hstd : (h.doc.get "exitFullscreen").truthy = false)
    (hwk : (h.doc.get "webkitExitFullscreen").truthy = false) :
    isEnabled h.doc = false ∧ isFullscreen h.doc = false ∧
    element h.doc = .null ∧
    request h n ls el opts = noopCall ls ∧
    exit h n ls = noopCall ls ∧
    toggle h n ls el opts = noopCall ls ∧
    onchange h.doc ls cb = ls ∧ onchangeOff h.doc ls cb = ls ∧
    onerror h.doc ls cb = ls ∧ onerrorOff h.doc ls cb = ls := by
  have h1 : ¬ ((h.doc.get (nth stdVariant 1)).truthy = true) := by
    have he : nth stdVariant 1 = "exitFullscreen" := by decide
    rw [he, hstd]; simp
  have h2 : ¬ ((h.doc.get (nth webkitVariant 1)).truthy = true) := by
    have he : nth webkitVariant 1 = "webkitExitFullscreen" := by decide
    rw [he, hwk]; simp
  have hsel : selectFn h.doc = none := by
    unfold selectFn variants
    rw [@List.find?_cons_of_neg _ (fun v => (h.doc.get (nth v 1)).truthy)
          stdVariant [webkitVariant] h1,
        @List.find?_cons_of_neg _ (fun v => (h.doc.get (nth v 1)).truthy)
          webkitVariant [] h2,
        List.find?_nil]
  refine ⟨?_, ?_, ?_, ?_, ?_, ?_, ?_, ?_, ?_, ?_⟩ <;>
    simp [isEnabled, isFullscreen, element, request, exit, toggle,
      onchange, onchangeOff, onerror, onerrorOff, hsel]

/-- Witness for C3 at a host with an empty document object. -/
theorem C3_graceful_degradation_witness :
    (exHostNone.doc.get "exitFullscreen").truthy = false ∧
    (exHostNone.doc.get "webkitExitFullscreen").truthy = false ∧
    (isEnabled exHostNone.doc = false ∧ isFullscreen exHostNone.doc = false ∧
     element exHostNone.doc = .null ∧
     request exHostNone 0 [] .undefined .undefined = noopCall [] ∧
     exit exHostNone 0 [] = noopCall [] ∧
     toggle exHostNone 0 [] .undefined .undefined = noopCall [] ∧
     onchange exHostNone.doc [] (.user 3) = [] ∧
     onchangeOff exHostNone.doc [] (.user 3) = [] ∧
     onerror exHostNone.doc [] (.user 3) = [] ∧
     onerrorOff exHostNone.doc [] (.user 3) = []) :=
  ⟨by decide, by decide,
    C3_graceful_degradation exHostNone 0 [] (.user 3) .undefined .undefined
      (by decide) (by decide)⟩

/-- Claim C4: on a supported host that is not currently fullscreen, exit
resolves immediately, invokes no underlying exit operation and registers
no listener. -/
theorem C4_idempotent_exit (h : Host) (f : List String) (n : Nat)
    (ls : Listeners) (hsel : selectFn h.doc = some f)
    (hnf : isFullscreen h.doc = false) :
    exit h n ls = ⟨.fulfilled, ls, [], false, false⟩ := by
  have h2 : (h.doc.get (nth f 2)).truthy = false := by
    unfold isFullscreen at hnf
    rw [hsel] at hnf
    exact hnf
  unfold exit
  rw [hsel]
  simp [exitSync, h2, resolveP]

/-- Witness for C4 at a supported host that is not fullscreen. -/
theorem C4_idempotent_exit_witness :
    selectFn exHostP.doc = some stdVariant ∧
    isFullscreen exHostP.doc = false ∧
    exit exHostP 0 [] = ⟨.fulfilled, [], [], false, false⟩ :=
  ⟨by decide, by decide,
    C4_idempotent_exit exHostP stdVariant 0 [] (by decide) (by decide)⟩

/-- Claim C5: on a supported host, toggle behaves exactly as exit when
isFullscreen is true (ignoring its arguments), and exactly as request
with the same arguments when isFullscreen is false. -/
theorem C5_toggle_symmetry (h : Host) (f : List String) (n : Nat)
    (ls : Listeners) (el opts : JSVal) (hsel : selectFn h.doc = some f) :
    (isFullscreen h.doc = true → toggle h n ls el opts = exit h n ls) ∧
    (isFullscreen h.doc = false →
      toggle h n ls el opts = request h n ls el opts) := by
  have hiff : isFullscreen h.doc = (h.doc.get (nth f 2)).truthy := by
    unfold isFullscreen
    rw [hsel]
  constructor <;> intro hfs <;> rw [hiff] at hfs <;>
    simp [toggle, exit, request, toggleSync, hsel, hfs]

/-- Witness for C5 at a host currently in fullscreen. -/
theorem C5_toggle_symmetry_witness :
    selectFn exHostFs.doc = some stdVariant ∧
    ((isFullscreen exHostFs.doc = true →
        toggle exHostFs 0 [] .undefined .undefined = exit exHostFs 0 []) ∧
     (isFullscreen exHostFs.doc = false →
        toggle exHostFs 0 [] .undefined .undefined = request exHostFs 0 [] .undefined .undefined)) :=
  ⟨by decide,
    C5_toggle_symmetry exHostFs stdVariant 0 [] .undefined .undefined (by decide)⟩

/-- Claim C6: on a supported host, request with no element argument (the
parameter is undefined) invokes the underlying request operation exactly
once, on the host's root element document.documentElement, with the given
options. -/
theorem C6_default_target (h : Host) (f : List String) (n : Nat)
    (ls : Listeners) (opts : JSVal) (hsel : selectFn h.doc = some f) :
    (request h n ls .undefined opts).reqInvoked
      = [(h.doc.documentElement, opts)] := by
  unfold request
  rw [hsel]
  unfold requestSync
  cases hb : h.reqBehavior (if JSVal.truthy .undefined then .undefined
      else h.doc.documentElement) opts <;>
    simp [JSVal.truthy] at hb ⊢ <;> rw [hb]

/-- Witness for C6 at a concrete supported host. -/
theorem C6_default_target_witness :
    selectFn exHostP.doc = some stdVariant ∧
    (request exHostP 0 [] .undefined .undefined).reqInvoked
      = [(exHostP.doc.documentElement, .undefined)] :=
  ⟨by decide, C6_default_target exHostP stdVariant 0 [] .undefined (by decide)⟩

/-- Claim C10: on a supported host whose underlying request operation
throws synchronously, request does not propagate the throw: the Promise
executor converts it into a rejection, and the returned promise is
rejected with exactly the thrown value. -/
theorem C10_sync_throw_rejects (h : Host) (f : List String) (n : Nat)
    (ls : Listeners) (el opts e : JSVal) (hsel : selectFn h.doc = some f)
    (hb : h.reqBehavior (if el.truthy then el else h.doc.documentElement)
        opts = .throws e) :
    (request h n ls el opts).pstate = .rejected e := by
  unfold request
  rw [hsel]
  simp [requestSync, hb, rejectP]

/-- Witness for C10 at a host whose request operation throws "err". -/
theorem C10_sync_throw_rejects_witness :
    selectFn exHostThrow.doc = some stdVariant ∧
    exHostThrow.reqBehavior
        (if JSVal.truthy .undefined then .undefined
         else exHostThrow.doc.documentElement) .undefined = .throws (.str "err") ∧
    (request exHostThrow 0 [] .undefined .undefined).pstate = .rejected (.str "err") :=
  ⟨by decide, rfl,
    C10_sync_throw_rejects exHostThrow stdVariant 0 [] .undefined .undefined
      (.str "err") (by decide) rfl⟩

/-- Claim C2: on a supported host whose underlying request operation
returns an awaitable, a rejection of that awaitable with any error value
E rejects the promise returned by request with exactly E, unmodified. -/
theorem C2_rejection_exact (h : Host) (f : List String) (n : Nat)
    (el opts e : JSVal) (hsel : selectFn h.doc = some f)
    (hb : h.reqBehavior (if el.truthy then el else h.doc.documentElement)
        opts = .retPromise) :
    (requestRun h f n [] el opts [.pReject e]).pstate = .rejected e := by
  simp [requestRun, requestSync, hb, runEvents, stepEvent, rejectP]

/-- Witness for C2 at a concrete host, error value "denied". -/
theorem C2_rejection_exact_witness :
    selectFn exHostP.doc = some stdVariant ∧
    exHostP.reqBehavior
        (if JSVal.truthy .undefined then .undefined
         else exHostP.doc.documentElement) .undefined = .retPromise ∧
    (requestRun exHostP stdVariant 0 [] .undefined .undefined
        [.pReject (.str "denied")]).pstate = .rejected (.str "denied") :=
  ⟨by decide, rfl,
    C2_rejection_exact exHostP stdVariant 0 .undefined .undefined (.str "denied")
      (by decide) rfl⟩

/-- Claim C1 counterexample: a supported host whose request operation
returns an awaitable.  With no events the returned promise is pending,
yet after the awaitable fulfills — and no change event ever fires — the
promise is already fulfilled: the source chains
promise.then(onFullScreenEntered), whose body calls resolve().  So the
awaitable's own successful completion does, by itself, resolve the
returned promise, refuting the claim. -/
theorem C1_counterexample :
    selectFn exHostP.doc = some stdVariant ∧
    exHostP.reqBehavior exHostP.doc.documentElement .undefined = .retPromise ∧
    (requestRun exHostP stdVariant 0 [] .undefined .undefined []).pstate
      = .pending ∧
    (requestRun exHostP stdVariant 0 [] .undefined .undefined [.pFulfill]).pstate
      = .fulfilled := by
  refine ⟨by decide, rfl, ?_, ?_⟩ <;> decide

/-- Claim C1 (amended): on a supported host whose request operation
returns an awaitable, the promise returned by request resolves when the
change event fires or when the awaitable fulfills, whichever comes first,
and any rejection of the awaitable propagates as the promise's
rejection. -/
theorem C1_resolution_paths (h : Host) (f : List String) (n : Nat)
    (el opts e : JSVal) (hsel : selectFn h.doc = some f)
    (hb : h.reqBehavior (if el.truthy then el else h.doc.documentElement)
        opts = .retPromise) :
    (requestRun h f n [] el opts [.changeEv]).pstate = .fulfilled ∧
    (requestRun h f n [] el opts [.pFulfill]).pstate = .fulfilled ∧
    (requestRun h f n [] el opts [.pReject e]).pstate = .rejected e := by
  refine ⟨?_, ?_, ?_⟩
  · simp [requestRun, requestSync, hb, runEvents, stepEvent, dispatchEvent,
      addListener, fireCb, runOneShot, resolveP, off, removeListener]
  · simp [requestRun, requestSync, hb, runEvents, stepEvent, runOneShot,
      resolveP]
  · simp [requestRun, requestSync, hb, runEvents, stepEvent, rejectP]

/-- Witness for the amended C1 at a concrete host. -/
theorem C1_resolution_paths_witness :
    selectFn exHostP.doc = some stdVariant ∧
    exHostP.reqBehavior
        (if JSVal.truthy .undefined then .undefined
         else exHostP.doc.documentElement) .undefined = .retPromise ∧
    ((requestRun exHostP stdVariant 1 [] .undefined .undefined [.changeEv]).pstate
        = .fulfilled ∧
     (requestRun exHostP stdVariant 1 [] .undefined .undefined [.pFulfill]).pstate
        = .fulfilled ∧
     (requestRun exHostP stdVariant 1 [] .undefined .undefined
        [.pReject (.str "no")]).pstate = .rejected (.str "no")) :=
  ⟨by decide, rfl,
    C1_resolution_paths exHostP stdVariant 1 .undefined .undefined (.str "no")
      (by decide) rfl⟩

/-- One fired callback preserves the facts that a given user callback is
not registered under the dispatched event name and has not been
invoked. -/
lemma fireCb_preserves (f : List String) (n : Nat) (name : String) (k : Nat)
    (st : RState) (cb : CbId)
    (hl : (name, CbId.user k) ∉ st.listeners) (hi : k ∉ st.invokedUser) :
    (name, CbId.user k) ∉ (fireCb f n name st cb).listeners ∧
    k ∉ (fireCb f n name st cb).invokedUser := by
  unfold fireCb
  by_cases hmem : (name, cb) ∈ st.listeners
  · rw [if_pos hmem]
    cases cb with
    | oneShot m =>
      dsimp only
      by_cases hm : m = n
      · rw [if_pos hm]
        unfold runOneShot off
        dsimp only
        refine ⟨?_, hi⟩
        by_cases hz : eventName f .change = ""
        · rw [if_pos hz]
          exact hl
        · rw [if_neg hz]
          intro hmem2
          exact hl (List.mem_of_mem_filter hmem2)
      · rw [if_neg hm]
        exact ⟨hl, hi⟩
    | user j =>
      have hj : j ≠ k := by
        rintro rfl
        exact hl hmem
      dsimp only
      refine ⟨hl, ?_⟩
      simp only [List.mem_append, List.mem_singleton]
      rintro (h1 | h1)
      · exact hi h1
      · exact hj h1.symm
  · rw [if_neg hmem]
    exact ⟨hl, hi⟩

/-- Folding fireCb over any callback list preserves non-registration and
non-invocation of a user callback. -/
lemma foldl_fire_preserves (f : List String) (n : Nat) (name : String)
    (k : Nat) :
    ∀ (l : List (String × CbId)) (st : RState),
      (name, CbId.user k) ∉ st.listeners → k ∉ st.invokedUser →
      (name, CbId.user k)
          ∉ (l.foldl (fun st p => fireCb f n name st p.2) st).listeners ∧
      k ∉ (l.foldl (fun st p => fireCb f n name st p.2) st).invokedUser
  | [], st, hl, hi => ⟨hl, hi⟩
  | p :: t, st, hl, hi => by
    have h2 := fireCb_preserves f n name k st p.2 hl hi
    simpa using foldl_fire_preserves f n name k t _ h2.1 h2.2

/-- Claim C7: on a supported host, after the unsubscribe closure returned
by onchange(cb) runs, cb is no longer registered for the change event, a
subsequent change-event dispatch never invokes cb, and running the
unsubscribe closure a second time is a no-op. -/
theorem C7_unsubscribe_correct (d : Doc) (f : List String) (ls : Listeners)
    (k n : Nat) (p : PState) (hsel : selectFn d = some f) :
    (eventName f .change, CbId.user k)
        ∉ onchangeOff d (onchange d ls (.user k)) (.user k) ∧
    k ∉ (dispatchEvent f n
        ⟨p, onchangeOff d (onchange d ls (.user k)) (.user k), []⟩
        (eventName f .change)).invokedUser ∧
    onchangeOff d (onchangeOff d (onchange d ls (.user k)) (.user k))
        (.user k)
      = onchangeOff d (onchange d ls (.user k)) (.user k) := by
  have hcn : eventName f .change ≠ "" := eventName_change_ne hsel
  have hoff : ∀ l, onchangeOff d l (.user k)
      = removeListener l (eventName f .change) (.user k) := by
    intro l
    simp [onchangeOff, hsel, off, hcn]
  have hnotmem : (eventName f .change, CbId.user k)
      ∉ onchangeOff d (onchange d ls (.user k)) (.user k) := by
    rw [hoff]
    unfold removeListener
    intro hmem
    have h2 := (List.mem_filter.mp hmem).2
    simp at h2
  refine ⟨hnotmem, ?_, ?_⟩
  · unfold dispatchEvent
    exact (foldl_fire_preserves f n (eventName f .change) k _ _ hnotmem
      (by simp)).2
  · rw [hoff, hoff]
    unfold removeListener
    rw [List.filter_filter]
    simp

/-- Witness for C7 at a concrete supported host, callback 7. -/
theorem C7_unsubscribe_correct_witness :
    selectFn exDocStd = some stdVariant ∧
    ((eventName stdVariant .change, CbId.user 7)
        ∉ onchangeOff exDocStd (onchange exDocStd [] (.user 7)) (.user 7) ∧
     7 ∉ (dispatchEvent stdVariant 0
        ⟨.pending,
         onchangeOff exDocStd (onchange exDocStd [] (.user 7)) (.user 7), []⟩
        (eventName stdVariant .change)).invokedUser ∧
     onchangeOff exDocStd
        (onchangeOff exDocStd (onchange exDocStd [] (.user 7)) (.user 7))
        (.user 7)
      = onchangeOff exDocStd (onchange exDocStd [] (.user 7)) (.user 7)) :=
  ⟨by decide,
    C7_unsubscribe_correct exDocStd stdVariant [] 7 0 .pending (by decide)⟩

end Fullscrn
